import Mathlib

/-!
Verification development for a stock-portfolio manager: a CSV of stock
symbols is parsed, one quote per symbol is fetched through a proxy, the
quote data is merged with the CSV row into a portfolio entry, and a
refresh re-fetches quotes for the entries already loaded.

JavaScript objects are embedded as association lists of string keys to
values, where the value written last for a key wins (object spread and
repeated property assignment both overwrite earlier bindings).  The
network is an oracle mapping a symbol to an optional quote payload:
`none` covers a network error, a non-success HTTP status, and a response
body that fails to parse, since the client catches all three the same
way.  Numbers are rationals.
-/

namespace SMA

/-- Dynamic value stored in an embedded JavaScript object: a string or a
number. -/
inductive Val where
  | str : String → Val
  | num : ℚ → Val
deriving DecidableEq

/-- Embedded JavaScript object: key-value pairs in insertion order; a key
written later shadows an earlier one. -/
abbrev Obj := List (String × Val)

/-- Property read on an embedded object: the last binding for the key
wins, `none` when the key is absent (JavaScript `undefined`). -/
def Obj.get (o : Obj) (k : String) : Option Val :=
  (o.reverse.find? (fun p => p.1 == k)).map (fun p => p.2)

/-- A parsed CSV row: column name to raw string value, insertion order,
last binding wins (repeated header names overwrite). -/
abbrev RawRecord := List (String × String)

/-- Property read on a raw record, last binding wins. -/
def recGet (r : RawRecord) (k : String) : Option String :=
  (r.reverse.find? (fun p => p.1 == k)).map (fun p => p.2)

/-- JavaScript `a || b` on optional strings: keep `a` when it is a
non-empty string, otherwise fall through to `b` (both `undefined` and the
empty string are falsy). -/
def jsOr (a b : Option String) : Option String :=
  match a with
  | some s => if s = "" then b else some s
  | none => b

/-- The value of `row.symbol || row.Symbol || row.SYMBOL`. -/
def rawChain (r : RawRecord) : Option String :=
  jsOr (recGet r "symbol") (jsOr (recGet r "Symbol") (recGet r "SYMBOL"))

/-- Leading and trailing whitespace removed, on the character list. -/
def trimChars (l : List Char) : List Char :=
  ((l.dropWhile Char.isWhitespace).reverse.dropWhile Char.isWhitespace).reverse

/-- JavaScript `s.trim()`. -/
def trimStr (s : String) : String := String.mk (trimChars s.data)

/-- JavaScript `s.toUpperCase()`. -/
def upperStr (s : String) : String := String.mk (s.data.map Char.toUpper)

/-- Symbol normalization: trim then upper-case. -/
def normalize (s : String) : String := upperStr (trimStr s)

/-- Quote payload decoded from the proxy response body; every field may
be absent (the client defaults each one). -/
structure QuoteData where
  companyName : Option String
  ltp : Option ℚ
  «open» : Option ℚ
  high : Option ℚ
  low : Option ℚ
  previousClose : Option ℚ
  change : Option ℚ
  changePercent : Option ℚ
  volume : Option ℚ
deriving DecidableEq

/-- Network oracle: `none` for a network error, a non-success HTTP
status, or a malformed response body (all are caught identically by the
client). -/
abbrev Net := String → Option QuoteData

/-- Per-symbol quote outcome: the payload on success, otherwise the
symbol and the fixed failure reason. -/
inductive QuoteResult where
  | Success : QuoteData → QuoteResult
  | Failure : String → String → QuoteResult
deriving DecidableEq

/-- One quote request: the body of the per-symbol closure in
`handleCSVData` up to the point where either the decoded payload is in
hand or the catch block runs. -/
def fetchQuote (net : Net) (symbol : String) : QuoteResult :=
  match net symbol with
  | some d => QuoteResult.Success d
  | none => QuoteResult.Failure symbol "Failed to fetch data"

/-- The quote-fetch step: one independent request per symbol, results
joined in input order (`symbols.map` + `Promise.all`). -/
def fetchQuotes (net : Net) (symbols : List String) : List QuoteResult :=
  symbols.map (fetchQuote net)

/-- C1: the quote-fetch step over N symbols yields exactly N results in
input order; a symbol whose request fails (network error, bad status, or
malformed body, all `none` in the oracle) yields a Failure result for
that symbol while every other position still gets its own result; the
step as a whole is a total function and never fails. -/
theorem fetchQuotes_one_result_per_symbol (net : Net) (symbols : List String) :
    (fetchQuotes net symbols).length = symbols.length ∧
    (∀ (i : Nat) (s : String), symbols[i]? = some s →
      (fetchQuotes net symbols)[i]? = some (fetchQuote net s)) ∧
    (∀ s, net s = none → fetchQuote net s = QuoteResult.Failure s "Failed to fetch data") ∧
    (∀ s d, net s = some d → fetchQuote net s = QuoteResult.Success d) := by
  refine ⟨List.length_map _ _, ?_, ?_, ?_⟩
  · intro i s hs
    simp [fetchQuotes, List.getElem?_map, hs]
  · intro s hs
    simp [fetchQuote, hs]
  · intro s d hs
    simp [fetchQuote, hs]

/-- Witness for C1 at a concrete two-symbol input where the second
request fails. -/
theorem fetchQuotes_one_result_per_symbol_witness :
    (fetchQuotes (fun s => if s = "RELIANCE" then
        some ⟨some "Reliance Industries Ltd.", some 2500, some 2460, some 2510,
          some 2440, some 2450, some 50, some 2, some 100000⟩
      else none) ["RELIANCE", "TCS"])[1]? =
      some (QuoteResult.Failure "TCS" "Failed to fetch data") := by
  have h := fetchQuotes_one_result_per_symbol
    (fun s => if s = "RELIANCE" then
        some ⟨some "Reliance Industries Ltd.", some 2500, some 2460, some 2510,
          some 2440, some 2450, some 50, some 2, some 100000⟩
      else none) ["RELIANCE", "TCS"]
  have h2 := h.2.1 1 "TCS" (by decide)
  rw [h2]
  have h3 := h.2.2.1 "TCS" (by decide)
  rw [h3]

/-- Map with a 0-based position index threaded through, mirroring
`array.map((x, index) => ...)`. -/
def mapIdxFrom (f : Nat → α → β) : Nat → List α → List β
  | _, [] => []
  | n, a :: as => f n a :: mapIdxFrom f (n + 1) as

theorem length_mapIdxFrom (f : Nat → α → β) (n : Nat) (l : List α) :
    (mapIdxFrom f n l).length = l.length := by
  induction l generalizing n with
  | nil => rfl
  | cons a as ih => simp [mapIdxFrom, ih]

theorem getElem?_mapIdxFrom (f : Nat → α → β) (n i : Nat) (l : List α) :
    (mapIdxFrom f n l)[i]? = (l[i]?).map (f (n + i)) := by
  induction l generalizing n i with
  | nil => simp [mapIdxFrom]
  | cons a as ih =>
    cases i with
    | zero => simp [mapIdxFrom]
    | succ j =>
      simp only [mapIdxFrom, List.getElem?_cons_succ, ih (n + 1) j]
      have harith : n + 1 + j = n + (j + 1) := by omega
      rw [harith]

theorem find?_append (l₁ l₂ : List α) (p : α → Bool) :
    (l₁ ++ l₂).find? p = match l₁.find? p with
      | some a => some a
      | none => l₂.find? p := by
  induction l₁ with
  | nil => simp
  | cons x xs ih =>
    by_cases h : p x <;> simp [List.find?_cons, h, ih]

/-- Object spread `{...a, ...b}` read through `get`: a key bound in `b`
shadows the binding in `a`. -/
theorem obj_get_append (a b : Obj) (k : String) :
    Obj.get (a ++ b) k = match Obj.get b k with
      | some v => some v
      | none => Obj.get a k := by
  unfold Obj.get
  rw [List.reverse_append, find?_append]
  cases h : b.reverse.find? (fun p => p.1 == k) <;> simp

/-- JavaScript `a || dflt` where the result is used as a string:
a non-empty string wins, otherwise the default. -/
def jsOrStr (a : Option String) (dflt : String) : String :=
  match a with
  | some s => if s = "" then dflt else s
  | none => dflt

/-- Generated fields of a successful initial-load entry, in object
literal order, before the CSV row is spread over them. -/
def quoteBase (index : Nat) (symbol : String) (d : QuoteData) (now : String) : Obj :=
  [("id", Val.num ((index : ℚ) + 1)),
   ("symbol", Val.str symbol),
   ("companyName", Val.str (jsOrStr d.companyName symbol)),
   ("ltp", Val.num (d.ltp.getD 0)),
   ("open", Val.num (d.«open».getD 0)),
   ("high", Val.num (d.high.getD 0)),
   ("low", Val.num (d.low.getD 0)),
   ("previousClose", Val.num (d.previousClose.getD 0)),
   ("change", Val.num (d.change.getD 0)),
   ("changePercent", Val.num (d.changePercent.getD 0)),
   ("volume", Val.num (d.volume.getD 0)),
   ("lastUpdated", Val.str now)]

/-- Generated fields of a failed initial-load entry: zeroed quote fields
and the fixed error message, before the CSV row is spread over them. -/
def failBase (index : Nat) (symbol : String) (now : String) : Obj :=
  [("id", Val.num ((index : ℚ) + 1)),
   ("symbol", Val.str symbol),
   ("companyName", Val.str symbol),
   ("ltp", Val.num 0),
   ("open", Val.num 0),
   ("high", Val.num 0),
   ("low", Val.num 0),
   ("previousClose", Val.num 0),
   ("change", Val.num 0),
   ("changePercent", Val.num 0),
   ("volume", Val.num 0),
   ("lastUpdated", Val.str now),
   ("error", Val.str "Failed to fetch data")]

/-- The spread `...csvData.find(row => (row.symbol || row.Symbol ||
row.SYMBOL)?.trim().toUpperCase() === symbol)`: the fields of the first
record whose normalized symbol matches, nothing when no record
matches. -/
def matchOverlay (csv : List RawRecord) (symbol : String) : Obj :=
  match csv.find? (fun row => match rawChain row with
      | some s => normalize s == symbol
      | none => false) with
  | some row => row.map (fun p => (p.1, Val.str p.2))
  | none => []

/-- One per-symbol closure of `handleCSVData`: fetch the quote and build
the entry, spreading the first matching CSV record last. -/
def stockEntry (net : Net) (csv : List RawRecord) (index : Nat) (symbol : String)
    (now : String) : Obj :=
  match fetchQuote net symbol with
  | QuoteResult.Success d => quoteBase index symbol d now ++ matchOverlay csv symbol
  | QuoteResult.Failure _ _ => failBase index symbol now ++ matchOverlay csv symbol

/-- The fetch-and-merge step of `handleCSVData`: one entry per symbol,
indexed from 0 (`symbols.map((symbol, index) => ...)` + `Promise.all`). -/
def handleCSVFetch (net : Net) (csv : List RawRecord) (now : String)
    (symbols : List String) : List Obj :=
  mapIdxFrom (fun i s => stockEntry net csv i s now) 0 symbols

/-- Message thrown by `handleCSVData` when no symbols survive the filter. -/
def noSymbolMsg : String :=
  "No valid stock symbols found in CSV. Please ensure your CSV has a \"symbol\" column."

/-- The filter `symbol => symbol && typeof symbol === 'string'` applied
to the value of the `||` chain: keeps exactly the non-empty strings. -/
def truthyStr : Option String → Bool
  | some s => s != ""
  | none => false

/-- The `const symbols` pipeline of `handleCSVData`: map each row
through the `||` chain, keep truthy strings, then trim and upper-case. -/
def extractedList (records : List RawRecord) : List String :=
  ((records.map rawChain).filter truthyStr).map (fun o => normalize (o.getD ""))

/-- Symbol extraction of `handleCSVData`: the pipeline above, throwing
when nothing remains. -/
def extractSymbols (records : List RawRecord) : Except String (List String) :=
  if (extractedList records).isEmpty then Except.error noSymbolMsg
  else Except.ok (extractedList records)

/-- CSV input for the duplicate-symbol scenario: two rows with symbol
INFY and different quantities. -/
def csvC2 : List RawRecord :=
  [[("symbol", "INFY"), ("quantity", "75")],
   [("symbol", "INFY"), ("quantity", "80")]]

/-- Oracle answering only INFY, used for the duplicate-symbol scenario. -/
def netC2 : Net := fun s =>
  if s = "INFY" then
    some ⟨some "Infosys Ltd.", some 1800, some 1790, some 1810, some 1780,
      some 1795, some 5, some 1, some 50000⟩
  else none

/-- C2 counterexample: a CSV with two rows both symbol INFY and
quantities 75 and 80. The entry at position 1 carries quantity "75"
from the first row, not "80" from its own row `records[1]`, because the
final overlay is always the first record whose normalized symbol
matches; so a duplicate row does not contribute its own base fields to
its own entry, refuting the claim. -/
theorem mergedEntry_own_row_fields_cex :
    extractSymbols csvC2 = Except.ok ["INFY", "INFY"] ∧
    Obj.get ((handleCSVFetch netC2 csvC2 "T" ["INFY", "INFY"]).getD 1 []) "quantity"
      = some (Val.str "75") ∧
    recGet (csvC2.getD 1 []) "quantity" = some "80" ∧
    Val.str "75" ≠ Val.str "80" := by
  refine ⟨rfl, by decide, by decide, by decide⟩

/-- C2 (amended): the entry at position i is built from the generated
fields (id = i + 1 and the quote fields fetched for `symbols[i]`),
overlaid last with the fields of the FIRST record whose normalized
symbol matches, so a CSV-supplied column always takes precedence over
the fetched fields; duplicate-symbol rows still produce distinct entries
(distinct id, each independently fetched) but all of them carry the
first matching row's CSV fields. -/
theorem mergedEntry_overlay_first_match (net : Net) (csv : List RawRecord)
    (now : String) (symbols : List String) :
    (∀ (i : Nat) (s : String), symbols[i]? = some s →
      (handleCSVFetch net csv now symbols)[i]? = some (stockEntry net csv i s now)) ∧
    (∀ (i : Nat) (s k : String) (v : Val),
      Obj.get (matchOverlay csv s) k = some v →
      Obj.get (stockEntry net csv i s now) k = some v) ∧
    (∀ (i : Nat) (s : String), Obj.get (matchOverlay csv s) "id" = none →
      Obj.get (stockEntry net csv i s now) "id" = some (Val.num ((i : ℚ) + 1))) := by
  refine ⟨?_, ?_, ?_⟩
  · intro i s hs
    rw [handleCSVFetch, getElem?_mapIdxFrom, hs]
    simp
  · intro i s k v hv
    unfold stockEntry
    cases fetchQuote net s <;> rw [obj_get_append, hv]
  · intro i s hid
    unfold stockEntry
    cases fetchQuote net s <;> rw [obj_get_append, hid] <;> rfl

/-- Witness for C2 (amended) at the duplicate-symbol input: position 1's
entry gets quantity "75" from the first matching row. -/
theorem mergedEntry_overlay_first_match_witness :
    Obj.get (stockEntry netC2 csvC2 1 "INFY" "T") "quantity" = some (Val.str "75") :=
  (mergedEntry_overlay_first_match netC2 csvC2 "T" ["INFY", "INFY"]).2.1
    1 "INFY" "quantity" (Val.str "75") (by decide)

/-- CSV input with a column named volume, clashing with a quote field. -/
def csvC5 : List RawRecord := [[("symbol", "TCS"), ("volume", "500")]]

/-- C5 counterexample: the CSV supplies a column named volume; on a
failed fetch for TCS the final entry's volume is the CSV string "500",
not the number 0, because the matched CSV row is spread last even on the
failure path. -/
theorem failedFetch_zeroed_entry_cex :
    Obj.get (stockEntry (fun _ => none) csvC5 0 "TCS" "T") "volume"
      = some (Val.str "500") ∧ Val.str "500" ≠ Val.num 0 := by
  refine ⟨by decide, by decide⟩

/-- C5 (amended): when the fetch for a symbol fails (network error,
non-success status, or malformed body — all `none` in the oracle), the
generated entry fields set every numeric quote field to 0 and the error
field to the fixed string "Failed to fetch data", and these survive to
the final entry for every field name the matched CSV record does not
itself supply; no provider-specific detail reaches the entry. A CSV
column sharing a quote-field name overrides the default. -/
theorem failedFetch_zeroed_entry (net : Net) (csv : List RawRecord)
    (index : Nat) (symbol now : String) (hnet : net symbol = none) :
    (∀ f, f ∈ ["ltp", "open", "high", "low", "previousClose", "change",
        "changePercent", "volume"] →
      Obj.get (matchOverlay csv symbol) f = none →
      Obj.get (stockEntry net csv index symbol now) f = some (Val.num 0)) ∧
    (Obj.get (matchOverlay csv symbol) "error" = none →
      Obj.get (stockEntry net csv index symbol now) "error"
        = some (Val.str "Failed to fetch data")) := by
  have hq : fetchQuote net symbol = QuoteResult.Failure symbol "Failed to fetch data" := by
    simp [fetchQuote, hnet]
  constructor
  · intro f hf hov
    unfold stockEntry
    rw [hq, obj_get_append, hov]
    fin_cases hf <;> rfl
  · intro hov
    unfold stockEntry
    rw [hq, obj_get_append, hov]
    rfl

/-- CSV input without any column clashing with a quote field. -/
def csvC5w : List RawRecord := [[("symbol", "TCS"), ("quantity", "50")]]

/-- Witness for C5 (amended): with no clashing CSV column, a failed
fetch yields volume 0 and the fixed error string. -/
theorem failedFetch_zeroed_entry_witness :
    Obj.get (stockEntry (fun _ => none) csvC5w 0 "TCS" "T") "volume"
      = some (Val.num 0) ∧
    Obj.get (stockEntry (fun _ => none) csvC5w 0 "TCS" "T") "error"
      = some (Val.str "Failed to fetch data") := by
  have h := failedFetch_zeroed_entry (fun _ => none) csvC5w 0 "TCS" "T" rfl
  exact ⟨h.1 "volume" (by decide) (by decide), h.2 (by decide)⟩

/-- The three-stage extraction pipeline (map the chain, filter truthy,
normalize) equals a single filterMap over the records. -/
theorem extract_pipeline_eq (records : List RawRecord) :
    extractedList records
      = (records.filterMap
          (fun r => (rawChain r).filter (fun s => s != ""))).map normalize := by
  unfold extractedList
  induction records with
  | nil => rfl
  | cons r rs ih =>
    cases h : rawChain r with
    | none => simp [h, truthyStr, List.filterMap_cons, Option.filter, ih]
    | some s =>
      by_cases hs : s = ""
      · simp [h, hs, truthyStr, List.filterMap_cons, Option.filter, ih]
      · simp [h, hs, truthyStr, List.filterMap_cons, Option.filter, ih]

/-- C6 counterexample: one record whose symbol value is a single space.
The truthiness filter runs before normalization, so the record is kept
and extraction succeeds, producing the empty normalized symbol ""
instead of excluding the record and failing. -/
theorem extractSymbols_nonempty_cex :
    extractSymbols [[("symbol", " ")]] = Except.ok [""] ∧
    ("" : String).length = 0 :=
  ⟨rfl, rfl⟩

/-- C6 (amended): extraction keeps exactly the records whose raw symbol
value (the symbol/Symbol/SYMBOL fallback chain) is a non-empty string,
and normalizes each kept value by trim then upper-case afterwards; it
fails exactly when no record passes that raw filter. Because the filter
precedes normalization, a whitespace-only value is kept and yields an
empty normalized symbol. -/
theorem extractSymbols_raw_filter (records : List RawRecord) :
    (extractSymbols records = Except.error noSymbolMsg ↔
      ∀ r ∈ records, truthyStr (rawChain r) = false) ∧
    (∀ l, extractSymbols records = Except.ok l →
      l = (records.filterMap
            (fun r => (rawChain r).filter (fun s => s != ""))).map normalize
      ∧ l ≠ []) := by
  have hpipe := extract_pipeline_eq records
  constructor
  · constructor
    · intro h r hr
      unfold extractSymbols at h
      split at h
      case isTrue hemp =>
        rw [List.isEmpty_iff] at hemp
        unfold extractedList at hemp
        rw [List.map_eq_nil_iff, List.filter_eq_nil_iff] at hemp
        have h2 := hemp (rawChain r) (List.mem_map_of_mem _ hr)
        simpa using h2
      case isFalse => exact absurd h (by simp)
    · intro hall
      unfold extractSymbols
      have hnil : extractedList records = [] := by
        unfold extractedList
        rw [List.map_eq_nil_iff, List.filter_eq_nil_iff]
        intro o ho
        rcases List.mem_map.mp ho with ⟨r, hr, rfl⟩
        simp [hall r hr]
      simp [hnil]
  · intro l hl
    unfold extractSymbols at hl
    split at hl
    case isTrue => exact absurd hl (by simp)
    case isFalse hemp =>
      injection hl with hl
      subst hl
      refine ⟨hpipe, ?_⟩
      intro hnil
      exact hemp (by rw [hnil]; rfl)

/-- Witness for C6 (amended) on a record whose symbol sits under the
Symbol key with surrounding blanks and lower case. -/
theorem extractSymbols_raw_filter_witness :
    (["TCS"] : List String) = (([[("Symbol", " tcs ")]] : List RawRecord).filterMap
        (fun r => (rawChain r).filter (fun s => s != ""))).map normalize ∧
    (["TCS"] : List String) ≠ [] :=
  (extractSymbols_raw_filter [[("Symbol", " tcs ")]]).2 ["TCS"] rfl

/-- The string value of an entry's symbol field, read as `stock.symbol`
(entries produced by the pipeline always carry a string there). -/
def entrySymStr (e : Obj) : String :=
  match Obj.get e "symbol" with
  | some (Val.str s) => s
  | _ => ""

/-- The refresh predicate `s.symbol === symbol`. -/
def symMatches (symbol : String) (e : Obj) : Bool :=
  Obj.get e "symbol" == some (Val.str symbol)

/-- Quote fields written by a successful refresh, in object literal
order, spread over the existing entry. -/
def quoteFields (d : QuoteData) (now : String) : Obj :=
  [("ltp", Val.num (d.ltp.getD 0)),
   ("open", Val.num (d.«open».getD 0)),
   ("high", Val.num (d.high.getD 0)),
   ("low", Val.num (d.low.getD 0)),
   ("previousClose", Val.num (d.previousClose.getD 0)),
   ("change", Val.num (d.change.getD 0)),
   ("changePercent", Val.num (d.changePercent.getD 0)),
   ("volume", Val.num (d.volume.getD 0)),
   ("lastUpdated", Val.str now)]

/-- One per-symbol closure of `refreshStockData`: on success, spread the
first entry carrying this symbol and overwrite its quote fields; on
failure, return the first entry carrying this symbol, falling back to
the entry at this index. -/
def refreshEntry (net : Net) (stocks : List Obj) (index : Nat) (symbol now : String) :
    Obj :=
  match net symbol with
  | some d => ((stocks.find? (symMatches symbol)).getD []) ++ quoteFields d now
  | none => (stocks.find? (symMatches symbol)).getD (stocks.getD index [])

/-- The fetch-and-rebuild step of `refreshStockData` over the current
portfolio (`symbols.map((symbol, index) => ...)` + `Promise.all`). -/
def refreshStocks (net : Net) (stocks : List Obj) (now : String) : List Obj :=
  mapIdxFrom (fun i sym => refreshEntry net stocks i sym now) 0 (stocks.map entrySymStr)

/-- Application state the session handlers read and write: the portfolio
array and the loading flag. -/
abbrev AppState := List Obj × Bool

/-- The whole `refreshStockData` handler: early return on an empty
portfolio, otherwise rebuild every entry and clear the loading flag.
The second component lists the symbols actually requested over the
network. -/
def refreshStockData (net : Net) (now : String) (s : AppState) : AppState × List String :=
  if s.1.isEmpty then (s, [])
  else ((refreshStocks net s.1 now, false), s.1.map entrySymStr)

/-- Portfolio with two entries sharing symbol INFY and distinct ids. -/
def stocksC3 : List Obj :=
  [[("id", Val.num 1), ("symbol", Val.str "INFY"), ("quantity", Val.str "75")],
   [("id", Val.num 2), ("symbol", Val.str "INFY"), ("quantity", Val.str "80")]]

/-- C3 counterexample: two entries share symbol INFY; when the refresh
fetch for INFY fails, each position receives the FIRST entry carrying
INFY, so the second entry (id 2) is absent from the refreshed portfolio
rather than contained unchanged. -/
theorem refreshFailure_keeps_entry_cex :
    refreshStocks (fun _ => none) stocksC3 "T"
      = [stocksC3.getD 0 [], stocksC3.getD 0 []] ∧
    stocksC3.getD 1 [] ∈ stocksC3 ∧
    stocksC3.getD 1 [] ∉ refreshStocks (fun _ => none) stocksC3 "T" := by
  refine ⟨by decide, by decide, by decide⟩

/-- C3 (amended): when the refresh fetch for the symbol at position i
fails, position i of the result holds the first portfolio entry carrying
that symbol, unchanged; in particular, whenever the entry at position i
is itself the first entry with its symbol (always the case when symbols
are unique), it is preserved byte-for-byte — same fields, no error flag
newly set — unlike the initial-load path. -/
theorem refreshFailure_keeps_first_match (net : Net) (stocks : List Obj)
    (now : String) (i : Nat) (sym : String)
    (hsym : (stocks.map entrySymStr)[i]? = some sym)
    (hnet : net sym = none) :
    (refreshStocks net stocks now)[i]?
      = some ((stocks.find? (symMatches sym)).getD (stocks.getD i [])) ∧
    (∀ e, stocks[i]? = some e → stocks.find? (symMatches sym) = some e →
      (refreshStocks net stocks now)[i]? = some e) := by
  constructor
  · rw [refreshStocks, getElem?_mapIdxFrom, hsym]
    simp [refreshEntry, hnet]
  · intro e hi hfind
    rw [refreshStocks, getElem?_mapIdxFrom, hsym]
    simp [refreshEntry, hnet, hfind]

/-- Portfolio with one entry, used as the unique-symbol witness. -/
def stocksC3w : List Obj :=
  [[("id", Val.num 1), ("symbol", Val.str "TCS"), ("ltp", Val.num 3200),
    ("error", Val.str "Failed to fetch data")]]

/-- Witness for C3 (amended): with a unique symbol, a failed refresh
leaves the single entry byte-for-byte in place. -/
theorem refreshFailure_keeps_first_match_witness :
    (refreshStocks (fun _ => none) stocksC3w "T")[0]? = some (stocksC3w.getD 0 []) :=
  (refreshFailure_keeps_first_match (fun _ => none) stocksC3w "T" 0 "TCS"
    (by decide) rfl).2 (stocksC3w.getD 0 []) (by decide) (by decide)

/-- Portfolio where the entry with an error marker is a later duplicate:
the first INFY entry has no error, the second one has it. -/
def stocksC9 : List Obj :=
  [[("symbol", Val.str "INFY"), ("ltp", Val.num 5)],
   [("symbol", Val.str "INFY"), ("error", Val.str "Failed to fetch data")]]

/-- Quote payload used by the refresh-success counterexample and witness. -/
def quoteC9 : QuoteData :=
  ⟨some "Infosys Ltd.", some 1800, some 1790, some 1810, some 1780,
    some 1795, some 5, some 1, some 50000⟩

/-- C9 counterexample: the entry at position 1 carries the error marker,
the refresh fetch for its symbol succeeds, yet the refreshed entry at
position 1 has NO error field: the success path rebuilds it from the
first INFY entry, which had none, so the error marker is cleared. -/
theorem refreshSuccess_keeps_error_cex :
    Obj.get (stocksC9.getD 1 []) "error" = some (Val.str "Failed to fetch data") ∧
    Obj.get ((refreshStocks (fun _ => some quoteC9) stocksC9 "T").getD 1 []) "error"
      = none := by
  refine ⟨by decide, by decide⟩

/-- C9 (amended): when the entry at position i is the first portfolio
entry carrying its symbol (always the case when symbols are unique) and
the refresh fetch for that symbol succeeds, the refreshed entry is that
entry with the price/volume/time fields overwritten and every other
field — the error marker included — left exactly as it was: refresh
never clears the error marker of such an entry. -/
theorem refreshSuccess_keeps_error (net : Net) (stocks : List Obj)
    (now : String) (i : Nat) (sym : String) (e : Obj) (d : QuoteData)
    (hsym : (stocks.map entrySymStr)[i]? = some sym)
    (hnet : net sym = some d)
    (hfind : stocks.find? (symMatches sym) = some e) :
    (refreshStocks net stocks now)[i]? = some (e ++ quoteFields d now) ∧
    Obj.get (e ++ quoteFields d now) "error" = Obj.get e "error" ∧
    Obj.get (e ++ quoteFields d now) "ltp" = some (Val.num (d.ltp.getD 0)) ∧
    Obj.get (e ++ quoteFields d now) "lastUpdated" = some (Val.str now) := by
  refine ⟨?_, ?_, ?_, ?_⟩
  · rw [refreshStocks, getElem?_mapIdxFrom, hsym]
    simp [refreshEntry, hnet, hfind]
  · rw [obj_get_append]
    rfl
  · rw [obj_get_append]
    rfl
  · rw [obj_get_append]
    rfl

/-- Witness for C9 (amended): a single-entry portfolio whose entry
carries an error marker; a successful refresh overwrites ltp but leaves
the error marker set. -/
theorem refreshSuccess_keeps_error_witness :
    (refreshStocks (fun _ => some quoteC9) stocksC3w "T")[0]?
      = some (stocksC3w.getD 0 [] ++ quoteFields quoteC9 "T") ∧
    Obj.get (stocksC3w.getD 0 [] ++ quoteFields quoteC9 "T") "error"
      = Obj.get (stocksC3w.getD 0 []) "error" ∧
    Obj.get (stocksC3w.getD 0 [] ++ quoteFields quoteC9 "T") "ltp"
      = some (Val.num (quoteC9.ltp.getD 0)) ∧
    Obj.get (stocksC3w.getD 0 [] ++ quoteFields quoteC9 "T") "lastUpdated"
      = some (Val.str "T") :=
  refreshSuccess_keeps_error (fun _ => some quoteC9) stocksC3w "T" 0 "TCS"
    (stocksC3w.getD 0 []) quoteC9 (by decide) rfl (by decide)

/-- C10: invoking refresh on an empty portfolio is a no-op: the early
return fires before any request is dispatched, so the portfolio, the
loading flag and the set of requested symbols are all empty-handed. -/
theorem refresh_empty_noop (net : Net) (now : String) (loading : Bool) :
    refreshStockData net now ([], loading) = (([], loading), []) := by
  rfl

/-- Split a character list on a separator character, JavaScript
`s.split(sep)`: one more group than separators, and splitting the empty
string gives one empty group. -/
def splitChars (sep : Char) : List Char → List (List Char)
  | [] => [[]]
  | c :: cs =>
    match splitChars sep cs with
    | [] => [[c]]
    | g :: gs => if c = sep then [] :: g :: gs else (c :: g) :: gs

/-- JavaScript `s.split(sep)` on strings. -/
def splitStr (sep : Char) (s : String) : List String :=
  (splitChars sep s.data).map String.mk

/-- One header or data field: trimmed, then every literal double quote
removed (`h.trim().replace(/"/g, "")` — the pattern is a single
character, so the replace deletes each occurrence). -/
def parseField (s : String) : String :=
  String.mk ((trimChars s.data).filter (fun c => c != '"'))

/-- Message thrown on structurally unusable CSV input. -/
def malformedMsg : String :=
  "CSV file must contain at least a header row and one data row."

/-- The header fields: first line of the trimmed input, split on commas,
each field parsed. -/
def csvHeaders (text : String) : List String :=
  (splitStr ',' ((splitStr '\n' (trimStr text)).headD "")).map parseField

/-- The parser's accumulation loop over the data lines: a row object is
pushed exactly when the line's field count equals the header's. -/
def parseLoop (headers : List String) (lines : List String) : List RawRecord :=
  lines.foldl (fun data line =>
    let values := (splitStr ',' line).map parseField
    if values.length = headers.length then data ++ [headers.zip values] else data) []

/-- The uploader's `parseCSV`: trim the input, split into lines, require
a header plus at least one data row, then run the accumulation loop. -/
def parseCSV (text : String) : Except String (List RawRecord) :=
  if (splitStr '\n' (trimStr text)).length < 2 then Except.error malformedMsg
  else Except.ok (parseLoop (csvHeaders text) ((splitStr '\n' (trimStr text)).drop 1))

/-- The accumulation loop keeps exactly the lines whose field count
matches the header's, zipping each with the headers, in input order. -/
theorem parseLoop_eq_filter (headers : List String) (lines : List String) :
    parseLoop headers lines
      = (lines.filter (fun line =>
          ((splitStr ',' line).map parseField).length == headers.length)).map
        (fun line => headers.zip ((splitStr ',' line).map parseField)) := by
  have key : ∀ (ls : List String) (acc : List RawRecord),
      ls.foldl (fun data line =>
        let values := (splitStr ',' line).map parseField
        if values.length = headers.length then data ++ [headers.zip values]
        else data) acc
      = acc ++ (ls.filter (fun line =>
          ((splitStr ',' line).map parseField).length == headers.length)).map
        (fun line => headers.zip ((splitStr ',' line).map parseField)) := by
    intro ls
    induction ls with
    | nil => intro acc; simp
    | cons x xs ih =>
      intro acc
      by_cases hx : ((splitStr ',' x).map parseField).length = headers.length
      · simp only [List.foldl_cons, List.filter_cons, hx, if_pos, beq_self_eq_true,
          if_true, List.map_cons, ih]
        simp
      · have hx2 : (((splitStr ',' x).map parseField).length == headers.length) = false := by
          simpa using hx
        simp only [List.foldl_cons, List.filter_cons, if_neg hx, hx2, Bool.false_eq_true,
          if_false, ih]
  simpa [parseLoop] using key lines []

/-- C7: with at least two trimmed lines, parsing succeeds and accepts a
data line exactly when its comma-split field count equals the header's:
the produced rows are precisely the matching lines zipped with the
headers, in order, and every mismatched line is dropped without raising
an error. -/
theorem parseCSV_accepts_iff_field_count (text : String)
    (h : 2 ≤ (splitStr '\n' (trimStr text)).length) :
    parseCSV text = Except.ok
      ((((splitStr '\n' (trimStr text)).drop 1).filter
          (fun line => ((splitStr ',' line).map parseField).length
            == (csvHeaders text).length)).map
        (fun line => (csvHeaders text).zip ((splitStr ',' line).map parseField))) := by
  unfold parseCSV
  rw [if_neg (by omega), parseLoop_eq_filter]

/-- Witness for C7 at a concrete input whose third line has one field
too many and is silently dropped. -/
theorem parseCSV_accepts_iff_field_count_witness :
    parseCSV "symbol,quantity\nRELIANCE,100\nTCS,50,extra" = Except.ok
      ((((splitStr '\n' (trimStr "symbol,quantity\nRELIANCE,100\nTCS,50,extra")).drop 1).filter
          (fun line => ((splitStr ',' line).map parseField).length
            == (csvHeaders "symbol,quantity\nRELIANCE,100\nTCS,50,extra").length)).map
        (fun line => (csvHeaders "symbol,quantity\nRELIANCE,100\nTCS,50,extra").zip
          ((splitStr ',' line).map parseField))) :=
  parseCSV_accepts_iff_field_count "symbol,quantity\nRELIANCE,100\nTCS,50,extra"
    (by decide)

/-- Session states of the spec's machine, read off the application
state: the loading flag wins, then an empty portfolio is Empty. -/
inductive SessionState where
  | Empty
  | Loading
  | Loaded
deriving DecidableEq

/-- Abstraction from application state to session state. -/
def sessionOf (s : AppState) : SessionState :=
  if s.2 then SessionState.Loading
  else if s.1.isEmpty then SessionState.Empty
  else SessionState.Loaded

/-- States traversed by `handleCSVData`, in order: the loading flag is
set first, then symbols are extracted; an extraction failure alerts and
only resets the flag (the finally clause), while success stores the
fetched entries and then resets the flag. -/
def handleCSVTrace (net : Net) (csv : List RawRecord) (now : String)
    (stocks0 : List Obj) : List AppState :=
  (stocks0, false) :: (stocks0, true) ::
  (match extractSymbols csv with
   | Except.error _ => [(stocks0, false)]
   | Except.ok symbols =>
     [(handleCSVFetch net csv now symbols, true),
      (handleCSVFetch net csv now symbols, false)])

/-- The uploader's file handler: a parse failure surfaces an inline
error before `onDataLoaded` ever runs, so the application state is
untouched; otherwise the parsed records flow into `handleCSVData`. -/
def handleFileTrace (net : Net) (now : String) (text : String)
    (stocks0 : List Obj) : List AppState :=
  match parseCSV text with
  | Except.error _ => [(stocks0, false)]
  | Except.ok csv => handleCSVTrace net csv now stocks0

/-- C8 counterexample: a CSV whose single record has no symbol column.
`handleCSVData` sets the loading flag before validating the symbols, so
the session passes Empty → Loading → Empty: the transition
Loading → Empty is reachable, contrary to the claim. -/
theorem loading_to_empty_unreachable_cex :
    (handleCSVTrace (fun _ => none) [[("quantity", "5")]] "T" []).map sessionOf
      = [SessionState.Empty, SessionState.Loading, SessionState.Empty] := by
  decide

/-- C8 (amended): a parse failure (MalformedInput) is raised in the
uploader before the handler runs, leaving the state entirely unchanged;
an extraction failure (NoSymbolColumn) alerts and returns the state to
its starting point, but only after setting the loading flag, so starting
from Empty the session passes Empty → Loading → Empty — Loading → Empty
IS reachable on that path; in both failure cases the portfolio
collection never changes and Loading → Loaded is not entered. -/
theorem failure_paths_state (net : Net) (now text : String)
    (csv : List RawRecord) (stocks0 : List Obj) :
    (∀ m, parseCSV text = Except.error m →
      handleFileTrace net now text stocks0 = [(stocks0, false)]) ∧
    (∀ m, extractSymbols csv = Except.error m →
      handleCSVTrace net csv now stocks0
        = [(stocks0, false), (stocks0, true), (stocks0, false)] ∧
      ∀ st ∈ handleCSVTrace net csv now stocks0, st.1 = stocks0) := by
  constructor
  · intro m hm
    unfold handleFileTrace
    rw [hm]
  · intro m hm
    have htr : handleCSVTrace net csv now stocks0
        = [(stocks0, false), (stocks0, true), (stocks0, false)] := by
      unfold handleCSVTrace
      rw [hm]
    refine ⟨htr, ?_⟩
    intro st hst
    rw [htr] at hst
    simp only [List.mem_cons, List.mem_singleton, List.not_mem_nil, or_false] at hst
    rcases hst with rfl | rfl | rfl <;> rfl

/-- Witness for C8 (amended) on a header-only file and on a CSV without
a symbol column. -/
theorem failure_paths_state_witness :
    handleFileTrace (fun _ => none) "T" "onlyheader" [] = [(([] : List Obj), false)] ∧
    handleCSVTrace (fun _ => none) [[("quantity", "5")]] "T" []
      = [(([] : List Obj), false), ([], true), ([], false)] := by
  have h := failure_paths_state (fun _ => none) "T" "onlyheader" [[("quantity", "5")]] []
  exact ⟨h.1 malformedMsg rfl, (h.2 noSymbolMsg rfl).1⟩

/-- Raw per-symbol data extracted from the upstream provider's batch
response (`upstoxData.data["NSE_EQ|symbol"]`). -/
structure UpstoxData where
  ohlcOpen : ℚ
  ohlcHigh : ℚ
  ohlcLow : ℚ
  ohlcClose : ℚ
  ltp : ℚ
  prevClosePrice : ℚ
  volume : ℚ

/-- JavaScript `parseFloat(x.toFixed(2))`: the value rounded to two
decimal places. -/
def round2 (x : ℚ) : ℚ := (round (100 * x) : ℤ) / 100

/-- Body of a successful proxy response; the same shape is produced by
both proxy handlers (live and mock). -/
structure ProxyQuote where
  companyName : String
  ltp : ℚ
  «open» : ℚ
  high : ℚ
  low : ℚ
  previousClose : ℚ
  change : ℚ
  changePercent : ℚ
  volume : ℚ

/-- The quote computed at the proxy boundary: change and changePercent
derived from ltp and the previous close, each rounded to two decimals
before being returned. -/
def proxyResponse (symbol : String) (s : UpstoxData) : ProxyQuote :=
  let change := s.ltp - s.prevClosePrice
  let changePercent := change / s.prevClosePrice * 100
  ⟨symbol, s.ltp, s.ohlcOpen, s.ohlcHigh, s.ohlcLow, s.prevClosePrice,
   round2 change, round2 changePercent, s.volume⟩

/-- Rounding to two decimals moves a rational by at most 1/100. -/
theorem round2_close (x : ℚ) : |round2 x - x| ≤ 1 / 100 := by
  have h : |100 * x - ((round (100 * x) : ℤ) : ℚ)| ≤ 1 / 2 := abs_sub_round (100 * x)
  have heq : round2 x - x = -((100 * x - ((round (100 * x) : ℤ) : ℚ)) / 100) := by
    unfold round2; ring
  rw [heq, abs_neg, abs_div, show |(100 : ℚ)| = 100 from by norm_num]
  have h2 := (div_le_div_iff_of_pos_right (show (0 : ℚ) < 100 by norm_num)).mpr h
  calc |100 * x - ((round (100 * x) : ℤ) : ℚ)| / 100 ≤ (1 / 2) / 100 := h2
    _ ≤ 1 / 100 := by norm_num

/-- C4: at the proxy boundary, when the previous close is non-zero, the
returned change is ltp − previousClose rounded to two decimals and the
returned changePercent is 100 · (ltp − previousClose) / previousClose
rounded to two decimals; both lie within 0.01 of the exact values. -/
theorem proxy_change_invariant (symbol : String) (s : UpstoxData)
    (h : s.prevClosePrice ≠ 0) :
    (proxyResponse symbol s).change = round2 (s.ltp - s.prevClosePrice) ∧
    |(proxyResponse symbol s).change - (s.ltp - s.prevClosePrice)| ≤ 1 / 100 ∧
    (proxyResponse symbol s).changePercent
      = round2 (100 * (s.ltp - s.prevClosePrice) / s.prevClosePrice) ∧
    |(proxyResponse symbol s).changePercent
      - 100 * (s.ltp - s.prevClosePrice) / s.prevClosePrice| ≤ 1 / 100 := by
  have hchange : (proxyResponse symbol s).change = round2 (s.ltp - s.prevClosePrice) := rfl
  have hpct : (proxyResponse symbol s).changePercent
      = round2 ((s.ltp - s.prevClosePrice) / s.prevClosePrice * 100) := rfl
  have harg : (s.ltp - s.prevClosePrice) / s.prevClosePrice * 100
      = 100 * (s.ltp - s.prevClosePrice) / s.prevClosePrice := by ring
  refine ⟨hchange, ?_, ?_, ?_⟩
  · rw [hchange]
    exact round2_close _
  · rw [hpct, harg]
  · rw [hpct, harg]
    exact round2_close _

/-- Provider data used by the C4 witness: ltp 2500, previous close 2450. -/
def upstoxC4 : UpstoxData := ⟨2460, 2510, 2440, 2490, 2500, 2450, 100000⟩

/-- Witness for C4 at the concrete RELIANCE quote. -/
theorem proxy_change_invariant_witness :
    (proxyResponse "RELIANCE" upstoxC4).change
      = round2 (upstoxC4.ltp - upstoxC4.prevClosePrice) ∧
    |(proxyResponse "RELIANCE" upstoxC4).change
      - (upstoxC4.ltp - upstoxC4.prevClosePrice)| ≤ 1 / 100 ∧
    (proxyResponse "RELIANCE" upstoxC4).changePercent
      = round2 (100 * (upstoxC4.ltp - upstoxC4.prevClosePrice) / upstoxC4.prevClosePrice) ∧
    |(proxyResponse "RELIANCE" upstoxC4).changePercent
      - 100 * (upstoxC4.ltp - upstoxC4.prevClosePrice) / upstoxC4.prevClosePrice|
      ≤ 1 / 100 :=
  proxy_change_invariant "RELIANCE" upstoxC4 (by decide)

end SMA
